import Mathlib

/-!
# Hosted X server: the Wayland backend (`hw/xfree86/hosted/wayland.c`)

A shallow embedding of the callbacks of `wayland.c` and of `wayland_screen_init`,
followed by the properties proved about them.

Conventions of the embedding.

* `uint32_t` values are natural numbers below `2 ^ 32`; every `uint32_t` operation of the
  source is followed by an explicit `% 2 ^ 32`.
* `int32_t` / `int` values are integers.  The conversion of a `uint32_t` to `int` is the
  two's-complement one (`toInt32`).  A signed addition whose result does not fit in 32 bits
  and a dereference of a null pointer have no defined result: the handler returns `none`.
* Pointers that the source tests or may find null are `Option`s.
* Calls into the X server (`xf86Post*Event`, `SetDeviceRedirectWindow`) are recorded, in the
  order they are made, as a list of `XCall`s.
* The constants of `linux/input.h` and `X11/X.h` have their values; `MODIFIER_META`, which
  `hosted-private.h` defines, is a parameter `META` of the functions that use it.
* The calls into the Wayland client library and into libdrm are answered by an `Env`.
-/

set_option linter.unusedVariables false

namespace Hosted

/-! ## Constants of the system headers -/

/-- From `linux/input.h`: `#define BTN_LEFT 0x110`. -/
def BTN_LEFT : Nat := 0x110
/-- From `linux/input.h`: `#define BTN_RIGHT 0x111`. -/
def BTN_RIGHT : Nat := 0x111
/-- From `linux/input.h`: `#define BTN_MIDDLE 0x112`. -/
def BTN_MIDDLE : Nat := 0x112
/-- From `linux/input.h`: `#define KEY_LEFTMETA 125`. -/
def KEY_LEFTMETA : Nat := 125
/-- From `linux/input.h`: `#define KEY_RIGHTMETA 126`. -/
def KEY_RIGHTMETA : Nat := 126

/-- From `X11/X.h`: `#define Success 0`. -/
def Success : Int := 0
/-- From `X11/X.h`: `#define BadAccess 10`. -/
def BadAccess : Int := 10
/-- From `X11/X.h`: `#define BadAlloc 11`. -/
def BadAlloc : Int := 11

/-- The C constant `TRUE` of the X server headers. -/
def TRUE : Int := 1

/-! ## Machine integers -/

/-- Conversion of a `uint32_t` to `int` (two's complement). -/
def toInt32 (n : Nat) : Int :=
  if n % 2 ^ 32 < 2 ^ 31 then ((n % 2 ^ 32 : Nat) : Int) else ((n % 2 ^ 32 : Nat) : Int) - 2 ^ 32

/-- Addition of two `uint32_t`. -/
def u32_add (a b : Nat) : Nat := (a + b) % 2 ^ 32

/-- Subtraction of two `uint32_t`. -/
def u32_sub (a b : Nat) : Nat := (a % 2 ^ 32 + 2 ^ 32 - b % 2 ^ 32) % 2 ^ 32

/-- Bitwise complement `~x` of a `uint32_t`. -/
def u32_not (x : Nat) : Nat := 2 ^ 32 - 1 - x % 2 ^ 32

/-- Addition of two `int32_t`; `none` when the sum is not representable (undefined in C). -/
def i32_add (a b : Int) : Option Int :=
  if -(2 : Int) ^ 31 ≤ a + b ∧ a + b < (2 : Int) ^ 31 then some (a + b) else none

/-! ## Data model -/

/-- The `drawable` member of a window: only its origin is read by the source. -/
structure DrawableRec where
  x : Int
  y : Int
deriving DecidableEq, Repr

/-- An X window record, as far as `wayland.c` reads it. -/
structure WindowRec where
  id : Nat
  drawable : DrawableRec
deriving DecidableEq, Repr

/-- A `WindowPtr`: null, the distinguished `PointerRootWin`, or a pointer to a window record. -/
inductive WindowPtr where
  | null
  | PointerRootWin
  | ptr (w : WindowRec)
deriving DecidableEq, Repr

/-- The `struct hosted_window` members used by the source. -/
structure hosted_window where
  surface : Nat
  window : WindowPtr
deriving DecidableEq, Repr

/-- A host surface: its object id and the user data attached to it (may be null). -/
structure wl_surface where
  id : Nat
  user_data : Option hosted_window
deriving DecidableEq, Repr

/-- The `struct hosted_input_device` members used by the source. `modifiers` is a `uint32_t`,
like the local `modifier` it is combined with; `pointer` and `keyboard` are the X devices. -/
structure hosted_input_device where
  input_device : Option Nat
  modifiers : Nat
  focus_window : Option hosted_window
  pointer : Nat
  keyboard : Nat
deriving DecidableEq, Repr

/-- A call made into the X server, with the arguments in the order of the C call. The
`is_down` argument is the `uint32_t state` the source passes. -/
inductive XCall where
  | xf86PostMotionEvent (device : Nat) (is_absolute first_valuator num_valuators : Int)
      (valuators : List Int)
  | xf86PostButtonEvent (device : Nat) (is_absolute button : Int) (is_down : Nat)
      (first_valuator num_valuators : Int)
  | xf86PostKeyboardEvent (device : Nat) (key_code is_down : Nat)
  | SetDeviceRedirectWindow (device : Nat) (window : WindowPtr)
deriving DecidableEq, Repr

/-! ## Input callbacks

`META` stands for the constant `MODIFIER_META` of `hosted-private.h`. -/

/-- The C function `input_device_handle_motion`. -/
def input_device_handle_motion (d : hosted_input_device) (time : Nat)
    (x y sx sy : Int) : Option (hosted_input_device × List XCall) :=
  match d.focus_window with
  | none => none
  | some fw =>
    match fw.window with
    | WindowPtr.ptr w =>
      let dx := w.drawable.x
      let dy := w.drawable.y
      match i32_add sx dx, i32_add sy dy with
      | some px, some py => some (d, [XCall.xf86PostMotionEvent d.pointer TRUE 0 2 [px, py]])
      | _, _ => none
    | _ => none

/-- The `switch` of `input_device_handle_button`, with the assignment to `int index`. -/
def button_index (button : Nat) : Int :=
  if button = BTN_MIDDLE then 2
  else if button = BTN_RIGHT then 3
  else toInt32 (u32_add (u32_sub button BTN_LEFT) 1)

/-- The C function `input_device_handle_button`. -/
def input_device_handle_button (d : hosted_input_device) (time button state : Nat) :
    hosted_input_device × List XCall :=
  (d, [XCall.xf86PostButtonEvent d.pointer TRUE (button_index button) state 0 0])

/-- The `switch` of `input_device_handle_key`: the modifier of a key. -/
def key_modifier (META key : Nat) : Nat :=
  if key = KEY_LEFTMETA ∨ key = KEY_RIGHTMETA then META % 2 ^ 32 else 0

/-- The C function `input_device_handle_key`. -/
def input_device_handle_key (META : Nat) (d : hosted_input_device) (time key state : Nat) :
    hosted_input_device × List XCall :=
  let modifier := key_modifier META key
  let modifiers :=
    if state ≠ 0 then (d.modifiers ||| modifier) % 2 ^ 32
    else (d.modifiers &&& u32_not modifier) % 2 ^ 32
  ({ d with modifiers := modifiers },
   [XCall.xf86PostKeyboardEvent d.keyboard (u32_add key 8) state])

/-- The C function `input_device_handle_pointer_focus`. -/
def input_device_handle_pointer_focus (d : hosted_input_device) (time : Nat)
    (surface : Option wl_surface) (x y sx sy : Int) : hosted_input_device × List XCall :=
  let focus_window : Option hosted_window :=
    match surface with
    | some s => s.user_data
    | none => none
  let d1 := { d with focus_window := focus_window }
  match d1.focus_window with
  | some fw => (d1, [XCall.SetDeviceRedirectWindow d1.pointer fw.window])
  | none => (d1, [XCall.SetDeviceRedirectWindow d1.pointer WindowPtr.PointerRootWin])

/-- One iteration of the loop of `input_device_handle_keyboard_focus`. -/
def keyboard_focus_step (META : Nat) (d : hosted_input_device) (k : Nat) : hosted_input_device :=
  if k = KEY_LEFTMETA ∨ k = KEY_RIGHTMETA then
    { d with modifiers := (d.modifiers ||| META) % 2 ^ 32 }
  else d

/-- The C function `input_device_handle_keyboard_focus`; `keys` lists the `uint32_t`
entries of the `wl_array`, in order. -/
def input_device_handle_keyboard_focus (META : Nat) (d : hosted_input_device) (time : Nat)
    (surface : Option wl_surface) (keys : List Nat) : hosted_input_device × List XCall :=
  (keys.foldl (keyboard_focus_step META) d, [])

/-- An event of the `wl_input_device_listener` interface, with its arguments. -/
inductive InputEvent where
  | motion (time : Nat) (x y sx sy : Int)
  | button (time button state : Nat)
  | key (time key state : Nat)
  | pointer_focus (time : Nat) (surface : Option wl_surface) (x y sx sy : Int)
  | keyboard_focus (time : Nat) (surface : Option wl_surface) (keys : List Nat)
deriving DecidableEq, Repr

/-- The table `input_device_listener`: the callback run for each event. -/
def input_device_listener (META : Nat) (d : hosted_input_device) :
    InputEvent → Option (hosted_input_device × List XCall)
  | InputEvent.motion time x y sx sy => input_device_handle_motion d time x y sx sy
  | InputEvent.button time button state => some (input_device_handle_button d time button state)
  | InputEvent.key time key state => some (input_device_handle_key META d time key state)
  | InputEvent.pointer_focus time surface x y sx sy =>
      some (input_device_handle_pointer_focus d time surface x y sx sy)
  | InputEvent.keyboard_focus time surface keys =>
      some (input_device_handle_keyboard_focus META d time surface keys)

/-- Delivery of a sequence of events to one input device, in order; the X calls of the
callbacks are concatenated. -/
def deliver (META : Nat) : List InputEvent → hosted_input_device →
    Option (hosted_input_device × List XCall)
  | [], d => some (d, [])
  | e :: es, d =>
    match input_device_listener META d e with
    | none => none
    | some (d1, calls) =>
      match deliver META es d1 with
      | none => none
      | some (d2, rest) => some (d2, calls ++ rest)

/-! ## The session, its outputs and the callbacks of the host connection -/

/-- The backends a `hosted_screen` may point to; this file defines `wayland_backend`. -/
inductive Backend where
  | wayland_backend
deriving DecidableEq, Repr

/-- The `struct hosted_screen` members used by the source. -/
structure hosted_screen where
  backend : Option Backend
  display : Option Nat
  compositor : Option Nat
  drm : Option Nat
  device_name : Option String
  authenticated : Int
  wayland_fd : Int
  drm_fd : Int
  mask : Nat
  width : Int
  height : Int
deriving DecidableEq, Repr

/-- The `struct hosted_output` members used by the source. Its `hosted_screen` member points
to the one session of the `World` the output belongs to. -/
structure hosted_output where
  output : Option Nat
  x : Int
  y : Int
  width : Int
  height : Int
deriving DecidableEq, Repr

/-- The state the callbacks act on: one session, the outputs and input devices that refer to
it (indexed by the id of the host object they were created for), the X calls made so far and
the magic cookies sent to the host with `wl_drm_authenticate`. -/
structure World where
  screen : hosted_screen
  outputs : Nat → hosted_output
  inputs : Nat → hosted_input_device
  xcalls : List XCall
  drm_requests : List Nat

/-- The C function `drm_handle_device`. -/
def drm_handle_device (w : World) (device : String) : World :=
  { w with screen := { w.screen with device_name := some device } }

/-- The C function `drm_handle_authenticated`. -/
def drm_handle_authenticated (w : World) : World :=
  { w with screen := { w.screen with authenticated := 1 } }

/-- The C function `display_handle_geometry`, for the output `o`. -/
def display_handle_geometry (w : World) (o : Nat) (width height : Int) : World :=
  let hosted_output := { w.outputs o with x := 0, y := 0, width := width, height := height }
  { w with
    outputs := fun i => if i = o then hosted_output else w.outputs i
    screen := { w.screen with width := width, height := height } }

/-- Modelled from the spec: `hosted_output_create` is defined in `hosted.c`, which is not
among the sources. The spec says an Output is "created on discovery of an output global" and
"back-references the owning Session". Here the new record is the one at index `id` of the
session's outputs, with the members it has there. -/
def hosted_output_create (w : World) (id : Nat) : hosted_output := w.outputs id

/-- Modelled from the spec: `hosted_input_device_create` is defined in `hosted.c`, which is
not among the sources. The spec says an input device is "created on discovery of an
input_device global". Here the new record is the one at index `id` of the session's input
devices, with the members it has there. -/
def hosted_input_device_create (w : World) (id : Nat) : hosted_input_device := w.inputs id

/-- The C function `create_output`; the proxy made by `wl_output_create` is named by `id`. -/
def create_output (w : World) (id : Nat) : World :=
  let hosted_output := { hosted_output_create w id with output := some id }
  { w with outputs := fun i => if i = id then hosted_output else w.outputs i }

/-- The C function `create_input_device`; the proxy made by `wl_input_device_create` is
named by `id`. -/
def create_input_device (w : World) (id : Nat) : World :=
  let hosted_input_device := { hosted_input_device_create w id with input_device := some id }
  { w with inputs := fun i => if i = id then hosted_input_device else w.inputs i }

/-- The C function `global_handler`; the proxies are named by the object id. -/
def global_handler (w : World) (id : Nat) (interface : String) (version : Nat) : World :=
  if interface = "compositor" then
    { w with screen := { w.screen with compositor := some id } }
  else if interface = "drm" then
    { w with screen := { w.screen with drm := some id } }
  else if interface = "output" then
    create_output w id
  else if interface = "input_device" then
    create_input_device w id
  else w

/-- The C function `source_update`. -/
def source_update (w : World) (mask : Nat) : World :=
  { w with screen := { w.screen with mask := mask } }

/-- A callback of this file invoked by the host connection, with its arguments; `output` and
`device` name the record passed as `data`. -/
inductive Callback where
  | global (id : Nat) (interface : String) (version : Nat)
  | drm_device (device : String)
  | drm_authenticated
  | geometry (output : Nat) (width height : Int)
  | input (device : Nat) (e : InputEvent)
  | source_update (mask : Nat)
deriving DecidableEq, Repr

/-- Run one callback; `none` when the callback has no defined result. -/
def dispatch (META : Nat) (w : World) : Callback → Option World
  | Callback.global id interface version => some (global_handler w id interface version)
  | Callback.drm_device device => some (drm_handle_device w device)
  | Callback.drm_authenticated => some (drm_handle_authenticated w)
  | Callback.geometry output width height => some (display_handle_geometry w output width height)
  | Callback.input device e =>
    match input_device_listener META (w.inputs device) e with
    | none => none
    | some (d, calls) =>
      some { w with
        inputs := fun i => if i = device then d else w.inputs i
        xcalls := w.xcalls ++ calls }
  | Callback.source_update mask => some (source_update w mask)

/-- Run a batch of callbacks in order. -/
def dispatch_all (META : Nat) : List Callback → World → Option World
  | [], w => some w
  | c :: cs, w =>
    match dispatch META w c with
    | none => none
    | some w1 => dispatch_all META cs w1

/-- Delivery of a sequence of geometry events `(output, width, height)`, in order. -/
def deliver_geometry (w : World) (es : List (Nat × Int × Int)) : World :=
  es.foldl (fun w e => display_handle_geometry w e.1 e.2.1 e.2.2) w

/-! ## Session bootstrap -/

/-- The results of the external calls of one run of `wayland_screen_init`. Every call but
`wl_display_iterate` is made at most once, so one value stands for its result;
`wl_display_iterate n` is the batch of callbacks the `n`-th call of `wl_display_iterate`
dispatches (counted from 0). -/
structure Env where
  /-- The display returned by `wl_display_create`; `none` is `NULL`. -/
  wl_display_create : Option Nat
  /-- The descriptor returned by `wl_display_get_fd`. -/
  wl_display_get_fd : Int
  /-- The mask `wl_display_get_fd` passes to the update callback, if it calls it. -/
  wl_display_get_fd_update : Option Nat
  /-- The descriptor returned by `open (device_name, O_RDWR)`. -/
  open_result : Int
  /-- The return value of `drmGetMagic` and the magic it stores. -/
  drmGetMagic : Int × Nat
  /-- The callbacks dispatched by each call of `wl_display_iterate`. -/
  wl_display_iterate : Nat → List Callback

/-- How a run ends: it returns a value, it has no defined result (a null dereference or a
signed overflow in a callback), or the loop is still running when the fuel is used up. -/
inductive Outcome (α : Type) where
  | returned (a : α)
  | undefined
  | running

/-- The loop `while (!hosted_screen->authenticated) wl_display_iterate (...)`; `n` counts the
calls of `wl_display_iterate` made before. `fuel` bounds the number of iterations. -/
def auth_loop (META : Nat) (env : Env) : Nat → Nat → World → Outcome World
  | fuel, n, w =>
    if w.screen.authenticated ≠ 0 then Outcome.returned w
    else
      match fuel with
      | 0 => Outcome.running
      | fuel + 1 =>
        match dispatch_all META (env.wl_display_iterate n) w with
        | none => Outcome.undefined
        | some w1 => auth_loop META env fuel (n + 1) w1

/-- Lines 303-306 of `wayland_screen_init`: the backend is set and the result of
`wl_display_create` is stored. -/
def screen_init_connect (env : Env) (w : World) : World :=
  let w0 := { w with screen := { w.screen with backend := some Backend.wayland_backend } }
  { w0 with screen := { w0.screen with display := env.wl_display_create } }

/-- Lines 319-327 of `wayland_screen_init`: the descriptor of the connection is stored
(`wl_display_get_fd` may call `source_update`), then the result of `open`. The registrations
with the X server (`AddGeneralSocket`, `RegisterBlockAndWakeupHandlers`) change nothing of
the `World`. -/
def screen_init_descriptors (env : Env) (w : World) : World :=
  let w3 := { w with screen := { w.screen with wayland_fd := env.wl_display_get_fd } }
  let w4 :=
    match env.wl_display_get_fd_update with
    | some mask => source_update w3 mask
    | none => w3
  { w4 with screen := { w4.screen with drm_fd := env.open_result } }

/-- Line 338 of `wayland_screen_init`: the request sent by `wl_drm_authenticate`. -/
def screen_init_authenticate (env : Env) (w : World) : World :=
  { w with drm_requests := w.drm_requests ++ [env.drmGetMagic.2] }

/-- The C function `wayland_screen_init`. The messages of `ErrorF` change nothing of the
`World`. `wl_drm_authenticate` dereferences `hosted_screen->drm`. -/
def wayland_screen_init (META : Nat) (env : Env) (fuel : Nat) (w : World) :
    Outcome (Int × World) :=
  let w1 := screen_init_connect env w
  match w1.screen.display with
  | none => Outcome.returned (BadAlloc, w1)
  | some _ =>
    match dispatch_all META (env.wl_display_iterate 0) w1 with
    | none => Outcome.undefined
    | some w2 =>
      let w5 := screen_init_descriptors env w2
      if w5.screen.drm_fd < 0 then Outcome.returned (BadAccess, w5)
      else if env.drmGetMagic.1 ≠ 0 then Outcome.returned (BadAccess, w5)
      else
        match w5.screen.drm with
        | none => Outcome.undefined
        | some _ =>
          let w6 := screen_init_authenticate env w5
          match dispatch_all META (env.wl_display_iterate 1) w6 with
          | none => Outcome.undefined
          | some w7 =>
            match auth_loop META env fuel 2 w7 with
            | Outcome.returned w8 => Outcome.returned (Success, w8)
            | Outcome.undefined => Outcome.undefined
            | Outcome.running => Outcome.running

/-! ## Concrete values used in the examples -/

/-- An input device with no focus, no modifier set, pointer 1 and keyboard 2. -/
def dev0 : hosted_input_device :=
  { input_device := some 3, modifiers := 0, focus_window := none, pointer := 1, keyboard := 2 }

/-- A window whose drawable origin is `(100, 50)`. -/
def win0 : WindowRec := { id := 7, drawable := { x := 100, y := 50 } }

/-- A hosted window for `win0`. -/
def hwin0 : hosted_window := { surface := 9, window := WindowPtr.ptr win0 }

/-- The device `dev0` with the focus on `hwin0`. -/
def dev1 : hosted_input_device := { dev0 with focus_window := some hwin0 }

/-! ## Vocabulary of the statements -/

/-- Whether a key code is one of the two meta keys. -/
def is_meta_key (k : Nat) : Bool := decide (k = KEY_LEFTMETA ∨ k = KEY_RIGHTMETA)

/-- Whether the `MODIFIER_META` bit of the mask `m` is set. -/
def meta_bit (META m : Nat) : Bool := decide (m &&& META ≠ 0)

/-- What a key event says of the meta keys: a key event for `KEY_LEFTMETA` or
`KEY_RIGHTMETA` is a press (`some true`) or a release (`some false`); any other event says
nothing. -/
def meta_key_event : InputEvent → Option Bool
  | InputEvent.key _ key state => if is_meta_key key then some (decide (state ≠ 0)) else none
  | _ => none

/-- What an event says of the meta keys when the held-key array of a keyboard focus event
counts too: such an array with a meta key in it says the key is down. -/
def meta_change : InputEvent → Option Bool
  | InputEvent.key _ key state => if is_meta_key key then some (decide (state ≠ 0)) else none
  | InputEvent.keyboard_focus _ _ keys => if keys.any is_meta_key then some true else none
  | _ => none

/-- Whether an event is a motion event. -/
def is_motion : InputEvent → Bool
  | InputEvent.motion _ _ _ _ _ => true
  | _ => false

/-- A press of the left meta key, a button press, a release of the right meta key, then a
keyboard focus with the left meta key held. -/
def meta_sequence : List InputEvent :=
  [InputEvent.key 0 KEY_LEFTMETA 1, InputEvent.button 1 BTN_LEFT 1,
   InputEvent.key 2 KEY_RIGHTMETA 0, InputEvent.keyboard_focus 3 none [KEY_LEFTMETA]]

/-- Whether a callback is a motion event of an input device. -/
def is_motion_callback : Callback → Bool
  | Callback.input _ e => is_motion e
  | _ => false

/-- A session before bootstrap: nothing connected, not authenticated, no size. -/
def screen0 : hosted_screen :=
  { backend := none, display := none, compositor := none, drm := none, device_name := none,
    authenticated := 0, wayland_fd := -1, drm_fd := -1, mask := 0, width := 0, height := 0 }

/-- An output record with arbitrary contents. -/
def output0 : hosted_output := { output := none, x := 3, y := 4, width := 640, height := 480 }

/-- A world with the session `screen0`, where every output record is `output0` and every
input device record is `dev0`. -/
def world0 : World :=
  { screen := screen0, outputs := fun _ => output0, inputs := fun _ => dev0,
    xcalls := [], drm_requests := [] }

/-- A run where everything succeeds: the host advertises a compositor, the drm object, an
output and the device name at once, and confirms the authentication in the fourth batch. -/
def env_ok : Env :=
  { wl_display_create := some 1
    wl_display_get_fd := 4
    wl_display_get_fd_update := some 1
    open_result := 5
    drmGetMagic := (0, 42)
    wl_display_iterate := fun n =>
      if n = 0 then
        [Callback.global 1 "compositor" 1, Callback.global 2 "drm" 1,
         Callback.drm_device "/dev/dri/card0", Callback.global 5 "output" 1]
      else if n = 2 then [Callback.geometry 5 1920 1080]
      else if n = 3 then [Callback.drm_authenticated]
      else [] }

/-- A run where `wl_display_create` returns `NULL`. -/
def env_no_display : Env := { env_ok with wl_display_create := none }

/-- A run where the device node cannot be opened. -/
def env_open_fails : Env := { env_ok with open_result := -1 }

/-- A run where `drmGetMagic` fails. -/
def env_magic_fails : Env := { env_ok with drmGetMagic := (-22, 0) }

/-- The status a run returned, if it returned. -/
def returned_status : Outcome (Int × World) → Option Int
  | Outcome.returned r => some r.1
  | _ => none

/-- The value of the `authenticated` flag when a run returned. -/
def returned_authenticated : Outcome (Int × World) → Option Int
  | Outcome.returned r => some r.2.screen.authenticated
  | _ => none

/-! ## Properties of the input callbacks -/

theorem and_mod_two_pow (m M : Nat) (hM : M < 2 ^ 32) : (m % 2 ^ 32) &&& M = m &&& M := by
  apply Nat.eq_of_testBit_eq
  intro i
  rw [Nat.testBit_and, Nat.testBit_and, Nat.testBit_mod_two_pow]
  by_cases hi : i < 32
  · simp [hi]
  · have hlt : M < 2 ^ i := lt_of_lt_of_le hM (Nat.pow_le_pow_right (by decide) (by omega))
    simp [Nat.testBit_lt_two_pow hlt]

theorem or_and_self (m M : Nat) : (m ||| M) &&& M = M := by
  apply Nat.eq_of_testBit_eq
  intro i
  rw [Nat.testBit_and, Nat.testBit_or]
  cases m.testBit i <;> cases M.testBit i <;> rfl

theorem and_not_and_self (m M : Nat) (hM : M < 2 ^ 32) : (m &&& (2 ^ 32 - 1 - M)) &&& M = 0 := by
  apply Nat.eq_of_testBit_eq
  intro i
  have h : 2 ^ 32 - 1 - M = 2 ^ 32 - (M + 1) := by omega
  rw [h, Nat.testBit_and, Nat.testBit_and, Nat.testBit_two_pow_sub_succ hM, Nat.zero_testBit]
  cases m.testBit i <;> cases M.testBit i <;> simp

theorem and_all_ones_mod (m : Nat) : (m &&& (2 ^ 32 - 1)) % 2 ^ 32 = m % 2 ^ 32 := by
  apply Nat.eq_of_testBit_eq
  intro i
  rw [Nat.testBit_mod_two_pow, Nat.testBit_mod_two_pow, Nat.testBit_and,
    Nat.testBit_two_pow_sub_one]
  by_cases hi : i < 32 <;> simp [hi]

theorem button_index_other (button : Nat) (hb : button < 2 ^ 32)
    (h1 : button ≠ BTN_MIDDLE) (h2 : button ≠ BTN_RIGHT) :
    button_index button =
      if (button : Int) - BTN_LEFT + 1 < 2 ^ 31 then (button : Int) - BTN_LEFT + 1
      else (button : Int) - BTN_LEFT + 1 - 2 ^ 32 := by
  unfold button_index
  rw [if_neg h1, if_neg h2]
  unfold toInt32 u32_add u32_sub BTN_LEFT
  split <;> split <;> omega

/-- C1 (as amended): `input_device_handle_button` posts exactly one button event on the
pointer of the device, with the state it was given, and with index 2 for `BTN_MIDDLE`, 3 for
`BTN_RIGHT`, and for every other 32-bit code the value `code - BTN_LEFT + 1` reduced to a
32-bit signed `int`: it is `code - BTN_LEFT + 1` itself when that is below `2 ^ 31` (so 1 for
`BTN_LEFT`, and the negative value for the codes below `BTN_LEFT`) and
`code - BTN_LEFT + 1 - 2 ^ 32` otherwise. A press then a release of `BTN_LEFT` posts two
events of index 1, with the two states in that order. -/
theorem button_event_posted (META : Nat) (d : hosted_input_device)
    (time time2 button state state2 : Nat) (hb : button < 2 ^ 32) :
    (∃ index : Int,
      input_device_handle_button d time button state =
        (d, [XCall.xf86PostButtonEvent d.pointer TRUE index state 0 0]) ∧
      (button = BTN_MIDDLE → index = 2) ∧
      (button = BTN_RIGHT → index = 3) ∧
      (button = BTN_LEFT → index = 1) ∧
      (button ≠ BTN_MIDDLE → button ≠ BTN_RIGHT →
        index = (if (button : Int) - BTN_LEFT + 1 < 2 ^ 31 then (button : Int) - BTN_LEFT + 1
                 else (button : Int) - BTN_LEFT + 1 - 2 ^ 32)) ∧
      (button < BTN_LEFT → index = (button : Int) - BTN_LEFT + 1)) ∧
    deliver META [InputEvent.button time BTN_LEFT state, InputEvent.button time2 BTN_LEFT state2] d
      = some (d, [XCall.xf86PostButtonEvent d.pointer TRUE 1 state 0 0,
                  XCall.xf86PostButtonEvent d.pointer TRUE 1 state2 0 0]) := by
  refine ⟨⟨button_index button, rfl, ?_, ?_, ?_, ?_, ?_⟩, ?_⟩
  · intro h; subst h; decide
  · intro h; subst h; decide
  · intro h; subst h; decide
  · intro h1 h2; exact button_index_other button hb h1 h2
  · intro h
    have h1 : button ≠ BTN_MIDDLE := by unfold BTN_MIDDLE; unfold BTN_LEFT at h; omega
    have h2 : button ≠ BTN_RIGHT := by unfold BTN_RIGHT; unfold BTN_LEFT at h; omega
    rw [button_index_other button hb h1 h2]
    unfold BTN_LEFT at h ⊢
    split <;> omega
  · have h1 : button_index BTN_LEFT = 1 := by decide
    simp [deliver, input_device_listener, input_device_handle_button, h1]

/-- Witness of `button_event_posted`: the code 0, below `BTN_LEFT`. -/
theorem button_event_posted_witness :
    (0 : Nat) < 2 ^ 32 ∧
    input_device_handle_button dev0 0 0 1 =
      (dev0, [XCall.xf86PostButtonEvent 1 TRUE (-271) 1 0 0]) := by
  refine ⟨by decide, ?_⟩
  obtain ⟨⟨index, h, _, _, _, _, hlow⟩, _⟩ := button_event_posted 1 dev0 0 0 0 1 0 (by decide)
  rw [h, hlow (by decide)]
  rfl

/-- C1 (counterexample): for the 32-bit code `4294967295`, which is neither `BTN_MIDDLE` nor
`BTN_RIGHT`, the index posted is `-272`, not `4294967295 - BTN_LEFT + 1`. -/
theorem button_index_wraps :
    (4294967295 : Nat) < 2 ^ 32 ∧ 4294967295 ≠ BTN_MIDDLE ∧ 4294967295 ≠ BTN_RIGHT ∧
    input_device_handle_button dev0 0 4294967295 1 =
      (dev0, [XCall.xf86PostButtonEvent 1 TRUE (-272) 1 0 0]) ∧
    (-272 : Int) ≠ ((4294967295 : Nat) : Int) - (BTN_LEFT : Int) + 1 := by
  decide

/-- C2 (as amended): `input_device_handle_key` posts exactly one keyboard event, on the
keyboard of the device, whose key code is `key + 8` reduced modulo `2 ^ 32` (so `key + 8`
itself whenever `key + 8 < 2 ^ 32`) and whose state is the state given; the event posted is
the same whatever the modifier mask of the device is before the call, and the call changes
nothing of the device but the mask. -/
theorem key_event_posted (META : Nat) (d : hosted_input_device) (time key state m : Nat) :
    (input_device_handle_key META d time key state).2 =
      [XCall.xf86PostKeyboardEvent d.keyboard ((key + 8) % 2 ^ 32) state] ∧
    (key + 8 < 2 ^ 32 →
      (input_device_handle_key META d time key state).2 =
        [XCall.xf86PostKeyboardEvent d.keyboard (key + 8) state]) ∧
    (input_device_handle_key META { d with modifiers := m } time key state).2 =
      (input_device_handle_key META d time key state).2 ∧
    (input_device_handle_key META d time key state).1 =
      { d with modifiers := (input_device_handle_key META d time key state).1.modifiers } := by
  refine ⟨rfl, ?_, rfl, rfl⟩
  intro h
  have h8 : (key + 8) % 2 ^ 32 = key + 8 := Nat.mod_eq_of_lt h
  show [XCall.xf86PostKeyboardEvent d.keyboard ((key + 8) % 2 ^ 32) state] = _
  rw [h8]

/-- Witness of `key_event_posted`: the key `KEY_LEFTMETA` is posted as 133. -/
theorem key_event_posted_witness :
    KEY_LEFTMETA + 8 < 2 ^ 32 ∧
    (input_device_handle_key 1 dev0 0 KEY_LEFTMETA 1).2 =
      [XCall.xf86PostKeyboardEvent dev0.keyboard (KEY_LEFTMETA + 8) 1] :=
  ⟨by decide, (key_event_posted 1 dev0 0 KEY_LEFTMETA 1 0).2.1 (by decide)⟩

/-- C2 (counterexample): for the key code `4294967295` the key code posted is 7, not
`4294967295 + 8`. -/
theorem key_code_wraps :
    (4294967295 : Nat) < 2 ^ 32 ∧
    (input_device_handle_key 1 dev0 0 4294967295 1).2 = [XCall.xf86PostKeyboardEvent 2 7 1] ∧
    (7 : Nat) ≠ 4294967295 + 8 := by
  decide

/-- C3 (as amended): when the device has a focused window and the two sums `sx + wx` and
`sy + wy` are representable as 32-bit signed integers, `input_device_handle_motion` posts
exactly one absolute motion event with 2 axes, starting at axis 0, on the pointer of the
device, with the coordinates `(sx + wx, sy + wy)`, where `(wx, wy)` is the drawable origin
of the focused window; the device is left as it was, and neither `x`, `y` nor the time
occur in the result. -/
theorem motion_event_posted (d : hosted_input_device) (fw : hosted_window) (w : WindowRec)
    (time : Nat) (x y sx sy : Int)
    (hfocus : d.focus_window = some fw) (hwin : fw.window = WindowPtr.ptr w)
    (hx : -(2 : Int) ^ 31 ≤ sx + w.drawable.x ∧ sx + w.drawable.x < 2 ^ 31)
    (hy : -(2 : Int) ^ 31 ≤ sy + w.drawable.y ∧ sy + w.drawable.y < 2 ^ 31) :
    input_device_handle_motion d time x y sx sy =
      some (d, [XCall.xf86PostMotionEvent d.pointer TRUE 0 2
                  [sx + w.drawable.x, sy + w.drawable.y]]) := by
  unfold input_device_handle_motion
  rw [hfocus]
  simp only [hwin, i32_add, if_pos hx, if_pos hy]

/-- Witness of `motion_event_posted`: the focus on a window at `(100, 50)`. -/
theorem motion_event_posted_witness :
    input_device_handle_motion dev1 5 1000 2000 3 4 =
      some (dev1, [XCall.xf86PostMotionEvent 1 TRUE 0 2 [103, 54]]) :=
  motion_event_posted dev1 hwin0 win0 5 1000 2000 3 4 rfl rfl (by decide) (by decide)

/-- C3 (counterexample): with the focus on a window at `(100, 50)` and the surface-local
coordinate `sx = 2147483647`, no event with the coordinates `(sx + 100, sy + 50)` is posted:
the sum is not a 32-bit signed integer and the call has no defined result. -/
theorem motion_sum_overflows :
    dev1.focus_window = some hwin0 ∧ hwin0.window = WindowPtr.ptr win0 ∧
    input_device_handle_motion dev1 0 0 0 2147483647 0 = none ∧
    input_device_handle_motion dev1 0 0 0 2147483647 0 ≠
      some (dev1, [XCall.xf86PostMotionEvent 1 TRUE 0 2 [2147483647 + 100, 0 + 50]]) := by
  decide

/-- C5 (as amended): `input_device_handle_pointer_focus` makes the focus reference of the
device the user data of the surface. If a surface is given and a window is attached to it as
user data, the focus reference becomes that window and the redirect target of the pointer is
set to its X window. If no surface is given, or the surface given has no user data, the
focus reference is null and the redirect target of the pointer is set to `PointerRootWin`.
In every case exactly one `SetDeviceRedirectWindow` call is made and nothing of the device
but the focus reference changes; the modifier mask is unchanged. -/
theorem pointer_focus_sets_redirect (d : hosted_input_device) (time : Nat)
    (surface : Option wl_surface) (x y sx sy : Int) :
    (∀ s fw, surface = some s → s.user_data = some fw →
      input_device_handle_pointer_focus d time surface x y sx sy =
        ({ d with focus_window := some fw },
         [XCall.SetDeviceRedirectWindow d.pointer fw.window])) ∧
    (∀ s, surface = some s → s.user_data = none →
      input_device_handle_pointer_focus d time surface x y sx sy =
        ({ d with focus_window := none },
         [XCall.SetDeviceRedirectWindow d.pointer WindowPtr.PointerRootWin])) ∧
    (surface = none →
      input_device_handle_pointer_focus d time surface x y sx sy =
        ({ d with focus_window := none },
         [XCall.SetDeviceRedirectWindow d.pointer WindowPtr.PointerRootWin])) ∧
    (input_device_handle_pointer_focus d time surface x y sx sy).1.modifiers = d.modifiers := by
  refine ⟨?_, ?_, ?_, ?_⟩
  · intro s fw hs hfw
    subst hs
    simp [input_device_handle_pointer_focus, hfw]
  · intro s hs hfw
    subst hs
    simp [input_device_handle_pointer_focus, hfw]
  · intro hs
    subst hs
    simp [input_device_handle_pointer_focus]
  · unfold input_device_handle_pointer_focus
    cases surface with
    | none => rfl
    | some s => cases h : s.user_data <;> simp [h]

/-- Witness of `pointer_focus_sets_redirect`: a surface whose user data is `hwin0`. -/
theorem pointer_focus_sets_redirect_witness :
    input_device_handle_pointer_focus dev0 0 (some { id := 9, user_data := some hwin0 }) 0 0 0 0 =
      ({ dev0 with focus_window := some hwin0 },
       [XCall.SetDeviceRedirectWindow dev0.pointer (WindowPtr.ptr win0)]) :=
  (pointer_focus_sets_redirect dev0 0 (some { id := 9, user_data := some hwin0 }) 0 0 0 0).1
    { id := 9, user_data := some hwin0 } hwin0 rfl rfl

/-- C5 (counterexample): a surface is given, no window is attached to it, and the redirect
target of the pointer is set to `PointerRootWin`, with the focus reference null. -/
theorem pointer_focus_surface_without_window :
    input_device_handle_pointer_focus dev1 0 (some { id := 9, user_data := none }) 0 0 0 0 =
      ({ dev1 with focus_window := none },
       [XCall.SetDeviceRedirectWindow dev1.pointer WindowPtr.PointerRootWin]) ∧
    ¬ ∃ fw : hosted_window,
      input_device_handle_pointer_focus dev1 0 (some { id := 9, user_data := none }) 0 0 0 0 =
        ({ dev1 with focus_window := some fw },
         [XCall.SetDeviceRedirectWindow dev1.pointer fw.window]) := by
  refine ⟨by decide, ?_⟩
  rintro ⟨fw, h⟩
  have h1 := congrArg (fun r => r.1.focus_window) h
  simp [input_device_handle_pointer_focus] at h1

theorem or_mod_or_mod (m M : Nat) : ((m ||| M) % 2 ^ 32 ||| M) % 2 ^ 32 = (m ||| M) % 2 ^ 32 := by
  apply Nat.eq_of_testBit_eq
  intro i
  simp only [Nat.testBit_mod_two_pow, Nat.testBit_or]
  cases decide (i < 32) <;> cases m.testBit i <;> cases M.testBit i <;> rfl

theorem keyboard_focus_fold (META : Nat) (keys : List Nat) (d : hosted_input_device) :
    keys.foldl (keyboard_focus_step META) d =
      if keys.any is_meta_key then { d with modifiers := (d.modifiers ||| META) % 2 ^ 32 }
      else d := by
  induction keys generalizing d with
  | nil => simp
  | cons k ks ih =>
    rw [List.foldl_cons, ih, List.any_cons]
    by_cases hk : k = KEY_LEFTMETA ∨ k = KEY_RIGHTMETA
    · have hk1 : is_meta_key k = true := by simp [is_meta_key, hk]
      simp only [keyboard_focus_step, if_pos hk, hk1, Bool.true_or, if_true, or_mod_or_mod]
      split <;> rfl
    · have hk1 : is_meta_key k = false := by simp [is_meta_key, hk]
      simp only [keyboard_focus_step, if_neg hk, hk1, Bool.false_or]

theorem any_meta_iff (keys : List Nat) :
    keys.any is_meta_key = true ↔ ∃ k ∈ keys, k = KEY_LEFTMETA ∨ k = KEY_RIGHTMETA := by
  simp [List.any_eq_true, is_meta_key]

/-- C10: for a 32-bit mask `m` and a 32-bit `MODIFIER_META`,
`input_device_handle_keyboard_focus` leaves the mask equal to `m ||| MODIFIER_META` when the
held-key array contains `KEY_LEFTMETA` or `KEY_RIGHTMETA`, and leaves the device as it was
otherwise; no bit of the mask is ever cleared, an empty array changes nothing, and the
result depends neither on the order or multiplicity of the keys, nor on the surface, nor on
the time. No call into the X server is made. -/
theorem keyboard_focus_union (META : Nat) (d : hosted_input_device) (time : Nat)
    (surface : Option wl_surface) (keys : List Nat)
    (hm : d.modifiers < 2 ^ 32) (hM : META < 2 ^ 32) :
    ((∃ k ∈ keys, k = KEY_LEFTMETA ∨ k = KEY_RIGHTMETA) →
      input_device_handle_keyboard_focus META d time surface keys =
        ({ d with modifiers := d.modifiers ||| META }, [])) ∧
    ((∀ k ∈ keys, k ≠ KEY_LEFTMETA ∧ k ≠ KEY_RIGHTMETA) →
      input_device_handle_keyboard_focus META d time surface keys = (d, [])) ∧
    (∀ i, d.modifiers.testBit i = true →
      (input_device_handle_keyboard_focus META d time surface keys).1.modifiers.testBit i
        = true) ∧
    input_device_handle_keyboard_focus META d time surface [] = (d, []) ∧
    (∀ keys2 : List Nat, (∀ k, k ∈ keys ↔ k ∈ keys2) →
      input_device_handle_keyboard_focus META d time surface keys2 =
        input_device_handle_keyboard_focus META d time surface keys) ∧
    (∀ (surface2 : Option wl_surface) (time2 : Nat),
      input_device_handle_keyboard_focus META d time2 surface2 keys =
        input_device_handle_keyboard_focus META d time surface keys) := by
  have hor : (d.modifiers ||| META) % 2 ^ 32 = d.modifiers ||| META :=
    Nat.mod_eq_of_lt (Nat.or_lt_two_pow hm hM)
  refine ⟨?_, ?_, ?_, ?_, ?_, ?_⟩
  · intro h
    have hany := (any_meta_iff keys).2 h
    simp only [input_device_handle_keyboard_focus, keyboard_focus_fold, hany, if_true, hor]
  · intro h
    have hany : keys.any is_meta_key = false := by
      rw [Bool.eq_false_iff]
      intro hc
      obtain ⟨k, hk, hk2⟩ := (any_meta_iff keys).1 hc
      have := h k hk
      tauto
    simp [input_device_handle_keyboard_focus, keyboard_focus_fold, hany]
  · intro i hi
    simp only [input_device_handle_keyboard_focus, keyboard_focus_fold]
    split
    · simp only [hor, Nat.testBit_or, hi, Bool.true_or]
    · exact hi
  · rfl
  · intro keys2 h
    have hany : keys2.any is_meta_key = keys.any is_meta_key := by
      rw [Bool.eq_iff_iff, any_meta_iff, any_meta_iff]
      constructor
      · rintro ⟨k, hk, hk2⟩; exact ⟨k, (h k).2 hk, hk2⟩
      · rintro ⟨k, hk, hk2⟩; exact ⟨k, (h k).1 hk, hk2⟩
    simp only [input_device_handle_keyboard_focus, keyboard_focus_fold, hany]
  · intro surface2 time2
    rfl

/-- Witness of `keyboard_focus_union`: the right meta key among the held keys. -/
theorem keyboard_focus_union_witness :
    input_device_handle_keyboard_focus 1 dev0 0 none [30, KEY_RIGHTMETA, 30] =
      ({ dev0 with modifiers := dev0.modifiers ||| 1 }, []) :=
  (keyboard_focus_union 1 dev0 0 none [30, KEY_RIGHTMETA, 30] (by decide) (by decide)).1
    ⟨KEY_RIGHTMETA, by decide, Or.inr rfl⟩

theorem meta_bit_mod (META m : Nat) (hM : META < 2 ^ 32) :
    meta_bit META (m % 2 ^ 32) = meta_bit META m := by
  unfold meta_bit
  rw [and_mod_two_pow m META hM]

theorem meta_bit_or (META m : Nat) (h0 : 0 < META) (hM : META < 2 ^ 32) :
    meta_bit META ((m ||| META) % 2 ^ 32) = true := by
  rw [meta_bit_mod META _ hM]
  unfold meta_bit
  rw [or_and_self]
  simp
  omega

theorem meta_bit_and_not (META m : Nat) (hM : META < 2 ^ 32) :
    meta_bit META ((m &&& u32_not (META % 2 ^ 32)) % 2 ^ 32) = false := by
  rw [meta_bit_mod META _ hM]
  unfold meta_bit u32_not
  rw [Nat.mod_mod, Nat.mod_eq_of_lt hM, and_not_and_self m META hM]
  simp

theorem handle_key_meta_bit (META : Nat) (d : hosted_input_device) (time key state : Nat)
    (h0 : 0 < META) (hM : META < 2 ^ 32) :
    meta_bit META (input_device_handle_key META d time key state).1.modifiers =
      (meta_change (InputEvent.key time key state)).getD (meta_bit META d.modifiers) := by
  by_cases hk : key = KEY_LEFTMETA ∨ key = KEY_RIGHTMETA
  · by_cases hs : state = 0
    · have hR : (meta_change (InputEvent.key time key state)).getD (meta_bit META d.modifiers)
          = false := by simp [meta_change, is_meta_key, hk, hs]
      have hL : (input_device_handle_key META d time key state).1.modifiers =
          (d.modifiers &&& u32_not (META % 2 ^ 32)) % 2 ^ 32 := by
        simp [input_device_handle_key, key_modifier, hk, hs]
      rw [hL, hR]
      exact meta_bit_and_not META d.modifiers hM
    · have hR : (meta_change (InputEvent.key time key state)).getD (meta_bit META d.modifiers)
          = true := by simp [meta_change, is_meta_key, hk, hs]
      have hL : (input_device_handle_key META d time key state).1.modifiers =
          (d.modifiers ||| META % 2 ^ 32) % 2 ^ 32 := by
        simp [input_device_handle_key, key_modifier, hk, hs]
      rw [hL, hR, Nat.mod_eq_of_lt hM]
      exact meta_bit_or META d.modifiers h0 hM
  · have hR : (meta_change (InputEvent.key time key state)).getD (meta_bit META d.modifiers)
        = meta_bit META d.modifiers := by simp [meta_change, is_meta_key, hk]
    rw [hR]
    by_cases hs : state = 0
    · have hL : (input_device_handle_key META d time key state).1.modifiers =
          (d.modifiers &&& (2 ^ 32 - 1)) % 2 ^ 32 := by
        simp [input_device_handle_key, key_modifier, hk, hs, u32_not]
      rw [hL, and_all_ones_mod, meta_bit_mod META _ hM]
    · have hL : (input_device_handle_key META d time key state).1.modifiers =
          d.modifiers % 2 ^ 32 := by
        simp [input_device_handle_key, key_modifier, hk, hs]
      rw [hL, meta_bit_mod META _ hM]

theorem handle_keyboard_focus_meta_bit (META : Nat) (d : hosted_input_device) (time : Nat)
    (surface : Option wl_surface) (keys : List Nat) (h0 : 0 < META) (hM : META < 2 ^ 32) :
    meta_bit META (input_device_handle_keyboard_focus META d time surface keys).1.modifiers =
      (meta_change (InputEvent.keyboard_focus time surface keys)).getD
        (meta_bit META d.modifiers) := by
  simp only [input_device_handle_keyboard_focus, keyboard_focus_fold, meta_change]
  cases h : keys.any is_meta_key
  · simp
  · simp only [if_true, Option.getD_some]
    exact meta_bit_or META d.modifiers h0 hM

theorem handle_motion_device (d d1 : hosted_input_device) (calls : List XCall) (time : Nat)
    (x y sx sy : Int) (h : input_device_handle_motion d time x y sx sy = some (d1, calls)) :
    d1 = d := by
  unfold input_device_handle_motion at h
  cases hf : d.focus_window with
  | none => simp [hf] at h
  | some fw =>
    cases hw : fw.window with
    | null => simp [hf, hw] at h
    | PointerRootWin => simp [hf, hw] at h
    | ptr w =>
      cases hx : i32_add sx w.drawable.x with
      | none => simp [hf, hw, hx] at h
      | some px =>
        cases hy : i32_add sy w.drawable.y with
        | none => simp [hf, hw, hx, hy] at h
        | some py =>
          simp only [hf, hw, hx, hy, Option.some.injEq, Prod.mk.injEq] at h
          exact h.1.symm

theorem handle_pointer_focus_modifiers (d : hosted_input_device) (time : Nat)
    (surface : Option wl_surface) (x y sx sy : Int) :
    (input_device_handle_pointer_focus d time surface x y sx sy).1.modifiers = d.modifiers := by
  unfold input_device_handle_pointer_focus
  cases surface with
  | none => rfl
  | some s => cases h : s.user_data <;> simp [h]

theorem listener_meta_bit (META : Nat) (d d1 : hosted_input_device) (e : InputEvent)
    (calls : List XCall) (h0 : 0 < META) (hM : META < 2 ^ 32)
    (h : input_device_listener META d e = some (d1, calls)) :
    meta_bit META d1.modifiers = (meta_change e).getD (meta_bit META d.modifiers) := by
  cases e with
  | motion time x y sx sy =>
    have hd := handle_motion_device d d1 calls time x y sx sy h
    subst hd
    rfl
  | button time button state =>
    simp only [input_device_listener, input_device_handle_button, Option.some.injEq,
      Prod.mk.injEq] at h
    rw [← h.1]
    rfl
  | key time key state =>
    simp only [input_device_listener, Option.some.injEq] at h
    have := handle_key_meta_bit META d time key state h0 hM
    rw [h] at this
    exact this
  | pointer_focus time surface x y sx sy =>
    simp only [input_device_listener, Option.some.injEq] at h
    have := handle_pointer_focus_modifiers d time surface x y sx sy
    rw [h] at this
    simp only [meta_change, Option.getD_none]
    rw [← this]
  | keyboard_focus time surface keys =>
    simp only [input_device_listener, Option.some.injEq] at h
    have := handle_keyboard_focus_meta_bit META d time surface keys h0 hM
    rw [h] at this
    exact this

theorem deliver_cons_some (META : Nat) (e : InputEvent) (es : List InputEvent)
    (d d2 : hosted_input_device) (calls : List XCall)
    (h : deliver META (e :: es) d = some (d2, calls)) :
    ∃ d1 c1 c2, input_device_listener META d e = some (d1, c1) ∧
      deliver META es d1 = some (d2, c2) ∧ calls = c1 ++ c2 := by
  simp only [deliver] at h
  cases h1 : input_device_listener META d e with
  | none => rw [h1] at h; cases h
  | some r1 =>
    obtain ⟨d1, c1⟩ := r1
    rw [h1] at h
    simp only at h
    cases h2 : deliver META es d1 with
    | none => rw [h2] at h; cases h
    | some r2 =>
      obtain ⟨d3, c2⟩ := r2
      rw [h2] at h
      simp only [Option.some.injEq, Prod.mk.injEq] at h
      exact ⟨d1, c1, c2, rfl, by rw [h2, h.1], h.2.symm⟩

theorem deliver_meta_bit (META : Nat) (h0 : 0 < META) (hM : META < 2 ^ 32)
    (evs : List InputEvent) (d d2 : hosted_input_device) (calls : List XCall)
    (h : deliver META evs d = some (d2, calls)) :
    meta_bit META d2.modifiers =
      ((evs.filterMap meta_change).getLast?).getD (meta_bit META d.modifiers) := by
  induction evs generalizing d calls with
  | nil =>
    simp only [deliver, Option.some.injEq, Prod.mk.injEq] at h
    rw [← h.1]
    rfl
  | cons e es ih =>
    obtain ⟨d1, c1, c2, hl, hr, _⟩ := deliver_cons_some META e es d d2 calls h
    rw [ih d1 c2 hr, listener_meta_bit META d d1 e c1 h0 hM hl]
    cases hmc : meta_change e with
    | none => simp [List.filterMap_cons, hmc]
    | some b => simp [List.filterMap_cons, hmc, List.getLast?_cons]

theorem deliver_defined (META : Nat) (evs : List InputEvent) (d : hosted_input_device)
    (h : ∀ e ∈ evs, is_motion e = false) : ∃ d2 calls, deliver META evs d = some (d2, calls) := by
  induction evs generalizing d with
  | nil => exact ⟨d, [], rfl⟩
  | cons e es ih =>
    have he : is_motion e = false := h e (List.mem_cons_self e es)
    have hes : ∀ e2 ∈ es, is_motion e2 = false := fun e2 h2 => h e2 (List.mem_cons_of_mem e h2)
    have hl : ∃ d1 c1, input_device_listener META d e = some (d1, c1) := by
      cases e with
      | motion time x y sx sy => simp [is_motion] at he
      | button time button state => exact ⟨_, _, rfl⟩
      | key time key state => exact ⟨_, _, rfl⟩
      | pointer_focus time surface x y sx sy => exact ⟨_, _, rfl⟩
      | keyboard_focus time surface keys => exact ⟨_, _, rfl⟩
    obtain ⟨d1, c1, hl⟩ := hl
    obtain ⟨d2, c2, hr⟩ := ih d1 hes
    exact ⟨d2, c1 ++ c2, by simp [deliver, hl, hr]⟩

/-- C6 (as amended): for a non-zero 32-bit `MODIFIER_META` and an input device whose
modifier mask starts at 0, after any sequence of input-device callbacks (motion, button,
key, pointer focus, keyboard focus) that has a defined result, the `MODIFIER_META` bit of
the mask is set if and only if the sequence contains a key event for `KEY_LEFTMETA` or
`KEY_RIGHTMETA`, or a keyboard-focus event whose held-key array contains one of them, and
the last such event is a key press (non-zero state) or such a keyboard-focus event. A
sequence without motion events always has a defined result. -/
theorem meta_bit_follows_last_change (META : Nat) (d : hosted_input_device)
    (evs : List InputEvent) (h0 : 0 < META) (hM : META < 2 ^ 32) (hd : d.modifiers = 0) :
    (∀ d2 calls, deliver META evs d = some (d2, calls) →
      (d2.modifiers &&& META ≠ 0 ↔ (evs.filterMap meta_change).getLast? = some true)) ∧
    ((∀ e ∈ evs, is_motion e = false) → ∃ d2 calls, deliver META evs d = some (d2, calls)) := by
  refine ⟨?_, deliver_defined META evs d⟩
  intro d2 calls h
  have hb := deliver_meta_bit META h0 hM evs d d2 calls h
  have hz : meta_bit META d.modifiers = false := by simp [meta_bit, hd]
  rw [hz] at hb
  have hiff : (d2.modifiers &&& META ≠ 0) ↔ meta_bit META d2.modifiers = true := by
    simp [meta_bit]
  rw [hiff, hb]
  cases (evs.filterMap meta_change).getLast? with
  | none => simp
  | some b => simp

/-- Witness of `meta_bit_follows_last_change`: a press of the left meta key, a button, a
release of the right meta key, then a keyboard focus with the left meta key held. -/
theorem meta_bit_follows_last_change_witness :
    deliver 1 meta_sequence dev0 =
      some ({ dev0 with modifiers := 1 },
        [XCall.xf86PostKeyboardEvent 2 133 1, XCall.xf86PostButtonEvent 1 TRUE 1 1 0 0,
         XCall.xf86PostKeyboardEvent 2 134 0]) ∧
    (({ dev0 with modifiers := 1 } : hosted_input_device).modifiers &&& 1 ≠ 0 ↔
      (meta_sequence.filterMap meta_change).getLast? = some true) :=
  ⟨by decide,
   (meta_bit_follows_last_change 1 dev0 meta_sequence (by decide) (by decide) rfl).1
     { dev0 with modifiers := 1 }
     [XCall.xf86PostKeyboardEvent 2 133 1, XCall.xf86PostButtonEvent 1 TRUE 1 1 0 0,
      XCall.xf86PostKeyboardEvent 2 134 0] (by decide)⟩

/-- C6 (counterexample): from the mask 0, a single keyboard-focus event whose held-key array
holds `KEY_LEFTMETA` sets the `MODIFIER_META` bit, although the sequence contains no key
event at all. -/
theorem meta_bit_set_without_key_event :
    dev0.modifiers = 0 ∧
    deliver 1 [InputEvent.keyboard_focus 0 none [KEY_LEFTMETA]] dev0 =
      some ({ dev0 with modifiers := 1 }, []) ∧
    ({ dev0 with modifiers := 1 } : hosted_input_device).modifiers &&& 1 ≠ 0 ∧
    ([InputEvent.keyboard_focus 0 none [KEY_LEFTMETA]].filterMap meta_key_event).getLast?
      ≠ some true := by
  decide

/-! ## Properties of the output tracking -/

theorem deliver_geometry_cons (w : World) (e : Nat × Int × Int) (es : List (Nat × Int × Int)) :
    deliver_geometry w (e :: es) =
      deliver_geometry (display_handle_geometry w e.1 e.2.1 e.2.2) es := rfl

theorem deliver_geometry_output (es : List (Nat × Int × Int)) (w : World) (o : Nat) :
    (deliver_geometry w es).outputs o =
      match (es.filter (fun e => decide (e.1 = o))).getLast? with
      | some e => { w.outputs o with x := 0, y := 0, width := e.2.1, height := e.2.2 }
      | none => w.outputs o := by
  induction es generalizing w with
  | nil => rfl
  | cons e es ih =>
    rw [deliver_geometry_cons, ih]
    by_cases he : e.1 = o
    · have hf : (e :: es).filter (fun e => decide (e.1 = o)) =
          e :: es.filter (fun e => decide (e.1 = o)) := by simp [List.filter_cons, he]
      rw [hf, List.getLast?_cons]
      cases (es.filter (fun e => decide (e.1 = o))).getLast? with
      | none => simp [display_handle_geometry, he]
      | some e2 => simp [display_handle_geometry, he]
    · have hf : (e :: es).filter (fun e => decide (e.1 = o)) =
          es.filter (fun e => decide (e.1 = o)) := by simp [List.filter_cons, he]
      have ho : ¬ o = e.1 := fun h => he h.symm
      rw [hf]
      cases (es.filter (fun e => decide (e.1 = o))).getLast? with
      | none => simp [display_handle_geometry, ho]
      | some e2 => simp [display_handle_geometry, ho]

theorem deliver_geometry_screen (es : List (Nat × Int × Int)) (w : World) :
    (deliver_geometry w es).screen =
      match es.getLast? with
      | some e => { w.screen with width := e.2.1, height := e.2.2 }
      | none => w.screen := by
  induction es generalizing w with
  | nil => rfl
  | cons e es ih =>
    rw [deliver_geometry_cons, ih, List.getLast?_cons]
    cases es.getLast? with
    | none => simp [display_handle_geometry]
    | some e2 => simp [display_handle_geometry]

/-- C4: after any sequence of geometry events delivered to the outputs of one session, an
output that received at least one event has `x = 0`, `y = 0` and the width and height of the
last event it received (its other members unchanged); the width and height of the session
are those of the last event of the whole sequence; an output that received no event is
unchanged, and a single event leaves every output other than its target unchanged. Output 5
receiving `(1920, 1080)` has width 1920 and height 1080, and so has the session. -/
theorem geometry_last_writer_wins (w : World) (es : List (Nat × Int × Int)) :
    (∀ o e, (es.filter (fun e => decide (e.1 = o))).getLast? = some e →
      (deliver_geometry w es).outputs o =
        { w.outputs o with x := 0, y := 0, width := e.2.1, height := e.2.2 }) ∧
    (∀ e, es.getLast? = some e →
      (deliver_geometry w es).screen = { w.screen with width := e.2.1, height := e.2.2 }) ∧
    (∀ o, (∀ e ∈ es, e.1 ≠ o) → (deliver_geometry w es).outputs o = w.outputs o) ∧
    (∀ o o2 width height, o2 ≠ o →
      (display_handle_geometry w o width height).outputs o2 = w.outputs o2) ∧
    ((deliver_geometry w [(5, 1920, 1080)]).outputs 5).width = 1920 ∧
    ((deliver_geometry w [(5, 1920, 1080)]).outputs 5).height = 1080 ∧
    (deliver_geometry w [(5, 1920, 1080)]).screen.width = 1920 ∧
    (deliver_geometry w [(5, 1920, 1080)]).screen.height = 1080 := by
  refine ⟨?_, ?_, ?_, ?_, rfl, rfl, rfl, rfl⟩
  · intro o e h
    rw [deliver_geometry_output, h]
  · intro e h
    rw [deliver_geometry_screen, h]
  · intro o h
    have hf : es.filter (fun e => decide (e.1 = o)) = [] := by
      rw [List.filter_eq_nil_iff]
      intro e he
      simpa using h e he
    rw [deliver_geometry_output, hf]
    rfl
  · intro o o2 width height h
    simp [display_handle_geometry, h]

/-- Witness of `geometry_last_writer_wins`: two outputs, three events. -/
theorem geometry_last_writer_wins_witness :
    (deliver_geometry world0 [(5, 800, 600), (6, 1024, 768), (5, 1920, 1080)]).outputs 5 =
      { output := none, x := 0, y := 0, width := 1920, height := 1080 } ∧
    (deliver_geometry world0 [(5, 800, 600), (6, 1024, 768), (5, 1920, 1080)]).screen =
      { screen0 with width := 1920, height := 1080 } ∧
    (deliver_geometry world0 [(5, 800, 600), (6, 1024, 768), (5, 1920, 1080)]).outputs 7 =
      output0 :=
  ⟨(geometry_last_writer_wins world0 [(5, 800, 600), (6, 1024, 768), (5, 1920, 1080)]).1
      5 (5, 1920, 1080) (by decide),
   (geometry_last_writer_wins world0 [(5, 800, 600), (6, 1024, 768), (5, 1920, 1080)]).2.1
      (5, 1920, 1080) (by decide),
   (geometry_last_writer_wins world0 [(5, 800, 600), (6, 1024, 768), (5, 1920, 1080)]).2.2.1
      7 (by decide)⟩

/-! ## Properties of the session bootstrap -/

theorem global_handler_authenticated (w : World) (id : Nat) (interface : String) (version : Nat) :
    (global_handler w id interface version).screen.authenticated = w.screen.authenticated := by
  unfold global_handler create_output create_input_device
  split
  · rfl
  · split
    · rfl
    · split
      · rfl
      · split <;> rfl

theorem dispatch_authenticated (META : Nat) (w w2 : World) (c : Callback)
    (h : dispatch META w c = some w2) :
    w2.screen.authenticated =
      if c = Callback.drm_authenticated then 1 else w.screen.authenticated := by
  cases c with
  | global id interface version =>
    simp only [dispatch, Option.some.injEq] at h
    rw [← h, global_handler_authenticated]
    simp
  | drm_device device =>
    simp only [dispatch, Option.some.injEq] at h
    rw [← h]
    simp [drm_handle_device]
  | drm_authenticated =>
    simp only [dispatch, Option.some.injEq] at h
    rw [← h]
    simp [drm_handle_authenticated]
  | geometry output width height =>
    simp only [dispatch, Option.some.injEq] at h
    rw [← h]
    simp [display_handle_geometry]
  | input device e =>
    simp only [dispatch] at h
    cases hl : input_device_listener META (w.inputs device) e with
    | none => rw [hl] at h; cases h
    | some r =>
      rw [hl] at h
      simp only [Option.some.injEq] at h
      rw [← h]
      simp
  | source_update mask =>
    simp only [dispatch, Option.some.injEq] at h
    rw [← h]
    simp [source_update]

theorem dispatch_all_authenticated (META : Nat) (cs : List Callback) (w w2 : World)
    (h : dispatch_all META cs w = some w2) :
    w2.screen.authenticated =
      if Callback.drm_authenticated ∈ cs then 1 else w.screen.authenticated := by
  induction cs generalizing w with
  | nil =>
    simp only [dispatch_all, Option.some.injEq] at h
    rw [← h]
    simp
  | cons c cs ih =>
    simp only [dispatch_all] at h
    cases hd : dispatch META w c with
    | none => rw [hd] at h; cases h
    | some w1 =>
      rw [hd] at h
      simp only at h
      rw [ih w1 h, dispatch_authenticated META w w1 c hd]
      by_cases hc : c = Callback.drm_authenticated
      · simp [hc]
      · have hc2 : ¬ Callback.drm_authenticated = c := fun h => hc h.symm
        simp [hc, hc2]

theorem auth_loop_returned (META : Nat) (env : Env) (fuel n : Nat) (w w2 : World)
    (h : auth_loop META env fuel n w = Outcome.returned w2) :
    w2.screen.authenticated ≠ 0 ∧
    ((∀ k, Callback.drm_authenticated ∉ env.wl_display_iterate k) →
      w2.screen.authenticated = w.screen.authenticated) := by
  induction fuel generalizing n w with
  | zero =>
    unfold auth_loop at h
    split at h
    · cases h
      exact ⟨by assumption, fun _ => rfl⟩
    · cases h
  | succ fuel ih =>
    unfold auth_loop at h
    split at h
    · cases h
      exact ⟨by assumption, fun _ => rfl⟩
    · cases hd : dispatch_all META (env.wl_display_iterate n) w with
      | none => rw [hd] at h; cases h
      | some w1 =>
        rw [hd] at h
        simp only at h
        obtain ⟨h1, h2⟩ := ih (n + 1) w1 h
        refine ⟨h1, fun hno => ?_⟩
        rw [h2 hno, dispatch_all_authenticated META _ w w1 hd, if_neg (hno n)]


theorem connect_display (env : Env) (w : World) :
    (screen_init_connect env w).screen.display = env.wl_display_create := rfl

theorem connect_authenticated (env : Env) (w : World) :
    (screen_init_connect env w).screen.authenticated = w.screen.authenticated := rfl

theorem descriptors_drm_fd (env : Env) (w : World) :
    (screen_init_descriptors env w).screen.drm_fd = env.open_result := rfl

theorem descriptors_authenticated (env : Env) (w : World) :
    (screen_init_descriptors env w).screen.authenticated = w.screen.authenticated := by
  unfold screen_init_descriptors
  cases env.wl_display_get_fd_update <;> rfl

theorem descriptors_drm (env : Env) (w : World) :
    (screen_init_descriptors env w).screen.drm = w.screen.drm := by
  unfold screen_init_descriptors
  cases env.wl_display_get_fd_update <;> rfl

theorem init_returned_cases (META : Nat) (env : Env) (fuel : Nat) (w w2 : World) (st : Int)
    (h : wayland_screen_init META env fuel w = Outcome.returned (st, w2)) :
    (env.wl_display_create = none ∧ st = BadAlloc) ∨
    (env.wl_display_create ≠ none ∧ env.open_result < 0 ∧ st = BadAccess) ∨
    (env.wl_display_create ≠ none ∧ 0 ≤ env.open_result ∧ env.drmGetMagic.1 ≠ 0 ∧
      st = BadAccess) ∨
    (env.wl_display_create ≠ none ∧ 0 ≤ env.open_result ∧ env.drmGetMagic.1 = 0 ∧
      st = Success ∧ w2.screen.authenticated ≠ 0) := by
  unfold wayland_screen_init at h
  simp only at h
  split at h
  · rename_i hc
    rw [connect_display] at hc
    simp only [Outcome.returned.injEq, Prod.mk.injEq] at h
    exact Or.inl ⟨hc, h.1.symm⟩
  · rename_i disp hc
    rw [connect_display] at hc
    have hne : env.wl_display_create ≠ none := by rw [hc]; simp
    split at h
    · cases h
    · rename_i wa hd
      rw [descriptors_drm_fd] at h
      split at h
      · rename_i hneg
        simp only [Outcome.returned.injEq, Prod.mk.injEq] at h
        exact Or.inr (Or.inl ⟨hne, hneg, h.1.symm⟩)
      · rename_i hpos
        split at h
        · rename_i hrc
          simp only [Outcome.returned.injEq, Prod.mk.injEq] at h
          exact Or.inr (Or.inr (Or.inl ⟨hne, by omega, hrc, h.1.symm⟩))
        · rename_i hrc
          split at h
          · cases h
          · split at h
            · cases h
            · split at h
              · rename_i wb wc hloop
                simp only [Outcome.returned.injEq, Prod.mk.injEq] at h
                have hauth := (auth_loop_returned META env fuel 2 _ wc hloop).1
                rw [h.2] at hauth
                exact Or.inr (Or.inr (Or.inr ⟨hne, by omega, by simpa using hrc, h.1.symm, hauth⟩))
              · cases h
              · cases h

theorem dispatch_defined (META : Nat) (w : World) (c : Callback)
    (h : is_motion_callback c = false) : ∃ w2, dispatch META w c = some w2 := by
  cases c with
  | global id interface version => exact ⟨_, rfl⟩
  | drm_device device => exact ⟨_, rfl⟩
  | drm_authenticated => exact ⟨_, rfl⟩
  | geometry output width height => exact ⟨_, rfl⟩
  | source_update mask => exact ⟨_, rfl⟩
  | input device e =>
    cases e with
    | motion time x y sx sy => simp [is_motion_callback, is_motion] at h
    | button time button state => exact ⟨_, rfl⟩
    | key time key state => exact ⟨_, rfl⟩
    | pointer_focus time surface x y sx sy => exact ⟨_, rfl⟩
    | keyboard_focus time surface keys => exact ⟨_, rfl⟩

theorem dispatch_all_defined (META : Nat) (cs : List Callback) (w : World)
    (h : ∀ c ∈ cs, is_motion_callback c = false) : ∃ w2, dispatch_all META cs w = some w2 := by
  induction cs generalizing w with
  | nil => exact ⟨w, rfl⟩
  | cons c cs ih =>
    obtain ⟨w1, h1⟩ := dispatch_defined META w c (h c (List.mem_cons_self c cs))
    obtain ⟨w2, h2⟩ := ih w1 (fun c2 hc2 => h c2 (List.mem_cons_of_mem c hc2))
    exact ⟨w2, by simp [dispatch_all, h1, h2]⟩

theorem global_handler_drm (w : World) (id : Nat) (interface : String) (version : Nat) :
    (w.screen.drm ≠ none ∨ interface = "drm") →
      (global_handler w id interface version).screen.drm ≠ none := by
  intro h
  unfold global_handler create_output create_input_device
  split
  · rename_i hi
    rcases h with h | h
    · exact h
    · rw [h] at hi; exact absurd hi (by decide)
  · split
    · simp
    · rename_i hi
      have hw : w.screen.drm ≠ none := by
        rcases h with h | h
        · exact h
        · exact absurd h hi
      split
      · exact hw
      · split
        · exact hw
        · exact hw

theorem dispatch_drm (META : Nat) (w w2 : World) (c : Callback)
    (h : dispatch META w c = some w2)
    (hdrm : w.screen.drm ≠ none ∨ ∃ id version, c = Callback.global id "drm" version) :
    w2.screen.drm ≠ none := by
  cases c with
  | global id interface version =>
    simp only [dispatch, Option.some.injEq] at h
    rw [← h]
    apply global_handler_drm
    rcases hdrm with h1 | ⟨id2, v2, h2⟩
    · exact Or.inl h1
    · simp only [Callback.global.injEq] at h2
      exact Or.inr h2.2.1
  | drm_device device =>
    simp only [dispatch, Option.some.injEq] at h
    rw [← h]
    rcases hdrm with h1 | ⟨id2, v2, h2⟩
    · exact h1
    · cases h2
  | drm_authenticated =>
    simp only [dispatch, Option.some.injEq] at h
    rw [← h]
    rcases hdrm with h1 | ⟨id2, v2, h2⟩
    · exact h1
    · cases h2
  | geometry output width height =>
    simp only [dispatch, Option.some.injEq] at h
    rw [← h]
    rcases hdrm with h1 | ⟨id2, v2, h2⟩
    · exact h1
    · cases h2
  | input device e =>
    simp only [dispatch] at h
    cases hl : input_device_listener META (w.inputs device) e with
    | none => rw [hl] at h; cases h
    | some r =>
      rw [hl] at h
      simp only [Option.some.injEq] at h
      rw [← h]
      rcases hdrm with h1 | ⟨id2, v2, h2⟩
      · exact h1
      · cases h2
  | source_update mask =>
    simp only [dispatch, Option.some.injEq] at h
    rw [← h]
    rcases hdrm with h1 | ⟨id2, v2, h2⟩
    · exact h1
    · cases h2

theorem dispatch_all_drm (META : Nat) (cs : List Callback) (w w2 : World)
    (h : dispatch_all META cs w = some w2)
    (hdrm : w.screen.drm ≠ none ∨ ∃ id version, Callback.global id "drm" version ∈ cs) :
    w2.screen.drm ≠ none := by
  induction cs generalizing w with
  | nil =>
    simp only [dispatch_all, Option.some.injEq] at h
    rw [← h]
    rcases hdrm with h1 | ⟨id, v, h2⟩
    · exact h1
    · cases h2
  | cons c cs ih =>
    simp only [dispatch_all] at h
    cases hd : dispatch META w c with
    | none => rw [hd] at h; cases h
    | some w1 =>
      rw [hd] at h
      simp only at h
      apply ih w1 h
      rcases hdrm with h1 | ⟨id, v, h2⟩
      · exact Or.inl (dispatch_drm META w w1 c hd (Or.inl h1))
      · rcases List.mem_cons.1 h2 with h3 | h3
        · exact Or.inl (dispatch_drm META w w1 c hd (Or.inr ⟨id, v, h3.symm⟩))
        · exact Or.inr ⟨id, v, h3⟩

theorem auth_loop_progress (META : Nat) (env : Env)
    (hnm : ∀ k, ∀ c ∈ env.wl_display_iterate k, is_motion_callback c = false)
    (fuel n : Nat) (w : World)
    (h : w.screen.authenticated ≠ 0 ∨
      ∃ k, n ≤ k ∧ k < n + fuel ∧ Callback.drm_authenticated ∈ env.wl_display_iterate k) :
    ∃ w2, auth_loop META env fuel n w = Outcome.returned w2 := by
  induction fuel generalizing n w with
  | zero =>
    rcases h with h | ⟨k, h1, h2, _⟩
    · exact ⟨w, by unfold auth_loop; rw [if_pos h]⟩
    · omega
  | succ fuel ih =>
    by_cases ha : w.screen.authenticated ≠ 0
    · exact ⟨w, by unfold auth_loop; rw [if_pos ha]⟩
    · obtain ⟨w1, hd⟩ := dispatch_all_defined META (env.wl_display_iterate n) w (hnm n)
      have hstep : auth_loop META env (fuel + 1) n w = auth_loop META env fuel (n + 1) w1 := by
        rw [auth_loop, if_neg ha]
        simp only [hd]
      rw [hstep]
      apply ih
      rcases h with h | ⟨k, h1, h2, h3⟩
      · exact absurd h ha
      · by_cases hk : k = n
        · left
          rw [hk] at h3
          rw [dispatch_all_authenticated META _ w w1 hd, if_pos h3]
          decide
        · right
          exact ⟨k, by omega, by omega, h3⟩

theorem init_display_null (META : Nat) (env : Env) (fuel : Nat) (w : World)
    (hc : env.wl_display_create = none) :
    wayland_screen_init META env fuel w =
      Outcome.returned (BadAlloc, screen_init_connect env w) := by
  unfold wayland_screen_init
  simp only
  split
  · rfl
  · rename_i disp hd
    rw [connect_display, hc] at hd
    cases hd

theorem init_access_fails (META : Nat) (env : Env) (fuel : Nat) (w : World)
    (hc : env.wl_display_create ≠ none)
    (hnm : ∀ c ∈ env.wl_display_iterate 0, is_motion_callback c = false)
    (hfail : env.open_result < 0 ∨ env.drmGetMagic.1 ≠ 0) :
    ∃ w2, wayland_screen_init META env fuel w = Outcome.returned (BadAccess, w2) := by
  obtain ⟨wa, hd⟩ :=
    dispatch_all_defined META (env.wl_display_iterate 0) (screen_init_connect env w) hnm
  unfold wayland_screen_init
  simp only
  split
  · rename_i hn
    rw [connect_display] at hn
    exact absurd hn hc
  · rw [hd]
    simp only [descriptors_drm_fd]
    by_cases hneg : env.open_result < 0
    · exact ⟨_, by rw [if_pos hneg]⟩
    · have hrc : env.drmGetMagic.1 ≠ 0 := by
        rcases hfail with h | h
        · exact absurd h hneg
        · exact h
      exact ⟨_, by rw [if_neg hneg, if_pos hrc]⟩

theorem init_succeeds (META : Nat) (env : Env) (fuel : Nat) (w : World)
    (hc : env.wl_display_create ≠ none) (hopen : 0 ≤ env.open_result)
    (hrc : env.drmGetMagic.1 = 0)
    (hnm : ∀ k, ∀ c ∈ env.wl_display_iterate k, is_motion_callback c = false)
    (hdrm : w.screen.drm ≠ none ∨
      ∃ id version, Callback.global id "drm" version ∈ env.wl_display_iterate 0)
    (hauth : ∃ k, k < fuel + 2 ∧ Callback.drm_authenticated ∈ env.wl_display_iterate k) :
    ∃ w2, wayland_screen_init META env fuel w = Outcome.returned (Success, w2) := by
  obtain ⟨wa, hd⟩ :=
    dispatch_all_defined META (env.wl_display_iterate 0) (screen_init_connect env w) (hnm 0)
  have hdrm2 : (screen_init_descriptors env wa).screen.drm ≠ none := by
    rw [descriptors_drm]
    exact dispatch_all_drm META _ _ wa hd hdrm
  obtain ⟨wb, hd1⟩ :=
    dispatch_all_defined META (env.wl_display_iterate 1)
      (screen_init_authenticate env (screen_init_descriptors env wa)) (hnm 1)
  have hloop : ∃ wc, auth_loop META env fuel 2 wb = Outcome.returned wc := by
    apply auth_loop_progress META env hnm
    obtain ⟨k, hk, hmem⟩ := hauth
    by_cases hk2 : 2 ≤ k
    · exact Or.inr ⟨k, hk2, by omega, hmem⟩
    · left
      rw [dispatch_all_authenticated META _ _ wb hd1]
      by_cases hk1 : k = 1
      · rw [hk1] at hmem
        rw [if_pos hmem]
        decide
      · have hk0 : k = 0 := by omega
        rw [hk0] at hmem
        have h0 : (screen_init_authenticate env (screen_init_descriptors env wa)).screen.authenticated
            = 1 := by
          show (screen_init_descriptors env wa).screen.authenticated = 1
          rw [descriptors_authenticated, dispatch_all_authenticated META _ _ wa hd, if_pos hmem]
        rw [h0]
        split <;> decide
  obtain ⟨wc, hloop⟩ := hloop
  refine ⟨wc, ?_⟩
  unfold wayland_screen_init
  simp only
  split
  · rename_i hn
    rw [connect_display] at hn
    exact absurd hn hc
  · rw [hd]
    simp only [descriptors_drm_fd]
    rw [if_neg (by omega), if_neg (by simpa using hrc)]
    split
    · rename_i hn
      exact absurd hn hdrm2
    · rw [hd1]
      simp only [hloop]

theorem init_authenticated_frame (META : Nat) (env : Env) (fuel : Nat) (w w2 : World)
    (st : Int) (h : wayland_screen_init META env fuel w = Outcome.returned (st, w2))
    (hno : ∀ k, Callback.drm_authenticated ∉ env.wl_display_iterate k) :
    w2.screen.authenticated = w.screen.authenticated := by
  unfold wayland_screen_init at h
  simp only at h
  split at h
  · simp only [Outcome.returned.injEq, Prod.mk.injEq] at h
    rw [← h.2, connect_authenticated]
  · split at h
    · cases h
    · rename_i wa hd
      have ha : (screen_init_descriptors env wa).screen.authenticated =
          w.screen.authenticated := by
        rw [descriptors_authenticated, dispatch_all_authenticated META _ _ wa hd,
          if_neg (hno 0), connect_authenticated]
      split at h
      · simp only [Outcome.returned.injEq, Prod.mk.injEq] at h
        rw [← h.2, ha]
      · split at h
        · simp only [Outcome.returned.injEq, Prod.mk.injEq] at h
          rw [← h.2, ha]
        · split at h
          · cases h
          · split at h
            · cases h
            · rename_i wb hd1
              split at h
              · rename_i wc hloop
                simp only [Outcome.returned.injEq, Prod.mk.injEq] at h
                rw [← h.2, (auth_loop_returned META env fuel 2 wb wc hloop).2 hno,
                  dispatch_all_authenticated META _ _ wb hd1, if_neg (hno 1)]
                exact ha
              · cases h
              · cases h

theorem env_ok_no_motion (k : Nat) :
    ∀ c ∈ env_ok.wl_display_iterate k, is_motion_callback c = false := by
  by_cases h0 : k = 0
  · subst h0; decide
  · by_cases h2 : k = 2
    · subst h2; decide
    · by_cases h3 : k = 3
      · subst h3; decide
      · intro c hc
        have hnil : env_ok.wl_display_iterate k = [] := by
          simp only [env_ok, if_neg h0, if_neg h2, if_neg h3]
        rw [hnil] at hc
        cases hc

/-- C7: whatever the external calls return, a status returned by `wayland_screen_init` is
`Success`, `BadAlloc` or `BadAccess`: it is `BadAlloc` exactly when `wl_display_create`
returned null, `BadAccess` exactly when the display was created and either `open` returned a
negative descriptor or `open` succeeded and `drmGetMagic` returned non-zero, and `Success`
only when the three steps succeeded. The function does return in each case: `BadAlloc` at
once when the display is null; `BadAccess` when the display was created, no callback of the
first batch is a motion event and `open` or `drmGetMagic` fails; `Success` when the three
steps succeed, no callback is a motion event, the drm object is bound by the first batch (or
on entry) and the authentication is confirmed in a batch the fuel reaches. -/
theorem screen_init_status (META : Nat) (env : Env) (fuel : Nat) (w : World) :
    (∀ st w2, wayland_screen_init META env fuel w = Outcome.returned (st, w2) →
      (st = Success ∨ st = BadAlloc ∨ st = BadAccess) ∧
      (st = BadAlloc ↔ env.wl_display_create = none) ∧
      (st = BadAccess ↔
        env.wl_display_create ≠ none ∧
          (env.open_result < 0 ∨ (0 ≤ env.open_result ∧ env.drmGetMagic.1 ≠ 0))) ∧
      (st = Success →
        env.wl_display_create ≠ none ∧ 0 ≤ env.open_result ∧ env.drmGetMagic.1 = 0)) ∧
    (env.wl_display_create = none →
      ∃ w2, wayland_screen_init META env fuel w = Outcome.returned (BadAlloc, w2)) ∧
    (env.wl_display_create ≠ none →
      (∀ c ∈ env.wl_display_iterate 0, is_motion_callback c = false) →
      (env.open_result < 0 ∨ env.drmGetMagic.1 ≠ 0) →
      ∃ w2, wayland_screen_init META env fuel w = Outcome.returned (BadAccess, w2)) ∧
    (env.wl_display_create ≠ none → 0 ≤ env.open_result → env.drmGetMagic.1 = 0 →
      (∀ k, ∀ c ∈ env.wl_display_iterate k, is_motion_callback c = false) →
      (w.screen.drm ≠ none ∨
        ∃ id version, Callback.global id "drm" version ∈ env.wl_display_iterate 0) →
      (∃ k, k < fuel + 2 ∧ Callback.drm_authenticated ∈ env.wl_display_iterate k) →
      ∃ w2, wayland_screen_init META env fuel w = Outcome.returned (Success, w2)) := by
  refine ⟨?_, ?_, ?_, ?_⟩
  · intro st w2 h
    have hcases := init_returned_cases META env fuel w w2 st h
    have hAA : BadAlloc ≠ BadAccess := by decide
    have hAS : BadAlloc ≠ Success := by decide
    have hCS : BadAccess ≠ Success := by decide
    rcases hcases with ⟨hc, hst⟩ | ⟨hc, ho, hst⟩ | ⟨hc, ho, hrc, hst⟩ | ⟨hc, ho, hrc, hst, _⟩
    · subst hst
      refine ⟨Or.inr (Or.inl rfl), ⟨fun _ => hc, fun _ => rfl⟩, ⟨fun h => absurd h hAA, ?_⟩, ?_⟩
      · rintro ⟨h1, _⟩
        exact absurd hc h1
      · intro h
        exact absurd h hAS
    · subst hst
      refine ⟨Or.inr (Or.inr rfl), ⟨fun h => absurd h.symm hAA, fun h => absurd h hc⟩,
        ⟨fun _ => ⟨hc, Or.inl ho⟩, fun _ => rfl⟩, ?_⟩
      intro h
      exact absurd h hCS
    · subst hst
      refine ⟨Or.inr (Or.inr rfl), ⟨fun h => absurd h.symm hAA, fun h => absurd h hc⟩,
        ⟨fun _ => ⟨hc, Or.inr ⟨ho, hrc⟩⟩, fun _ => rfl⟩, ?_⟩
      intro h
      exact absurd h hCS
    · subst hst
      refine ⟨Or.inl rfl, ⟨fun h => absurd h.symm hAS, fun h => absurd h hc⟩,
        ⟨fun h => absurd h.symm hCS, ?_⟩, fun _ => ⟨hc, ho, hrc⟩⟩
      rintro ⟨_, h1 | ⟨_, h2⟩⟩
      · omega
      · exact absurd hrc h2
  · intro hc
    exact ⟨_, init_display_null META env fuel w hc⟩
  · intro hc hnm hfail
    exact init_access_fails META env fuel w hc hnm hfail
  · intro hc hopen hrc hnm hdrm hauth
    exact init_succeeds META env fuel w hc hopen hrc hnm hdrm hauth

/-- Witness of `screen_init_status`: the run `env_ok` returns `Success` with fuel 5, and the
status is not `BadAlloc` since the display was created. -/
theorem screen_init_status_witness :
    ∃ w2, wayland_screen_init 1 env_ok 5 world0 = Outcome.returned (Success, w2) ∧
      (Success = BadAlloc ↔ env_ok.wl_display_create = none) := by
  obtain ⟨w2, h⟩ := (screen_init_status 1 env_ok 5 world0).2.2.2 (by decide) (by decide)
    (by decide) env_ok_no_motion (Or.inr ⟨2, 1, by decide⟩) ⟨3, by decide, by decide⟩
  exact ⟨w2, h, ((screen_init_status 1 env_ok 5 world0).1 Success w2 h).2.1⟩

/-- C8 (as amended): when no callback of the first batch is a motion event, a failure of
`wl_display_create` makes `wayland_screen_init` return `BadAlloc`, and a failure of `open`
and a failure of `drmGetMagic` both make it return `BadAccess`; `BadAlloc` and `BadAccess`
differ from each other and from `Success`. -/
theorem failure_statuses (META : Nat) (env : Env) (fuel : Nat) (w : World)
    (hnm : ∀ c ∈ env.wl_display_iterate 0, is_motion_callback c = false) :
    (env.wl_display_create = none →
      returned_status (wayland_screen_init META env fuel w) = some BadAlloc) ∧
    (env.wl_display_create ≠ none → env.open_result < 0 →
      returned_status (wayland_screen_init META env fuel w) = some BadAccess) ∧
    (env.wl_display_create ≠ none → 0 ≤ env.open_result → env.drmGetMagic.1 ≠ 0 →
      returned_status (wayland_screen_init META env fuel w) = some BadAccess) ∧
    BadAlloc ≠ BadAccess ∧ BadAlloc ≠ Success ∧ BadAccess ≠ Success := by
  refine ⟨?_, ?_, ?_, by decide, by decide, by decide⟩
  · intro hc
    rw [init_display_null META env fuel w hc]
    rfl
  · intro hc ho
    obtain ⟨w2, h⟩ := init_access_fails META env fuel w hc hnm (Or.inl ho)
    rw [h]
    rfl
  · intro hc _ hrc
    obtain ⟨w2, h⟩ := init_access_fails META env fuel w hc hnm (Or.inr hrc)
    rw [h]
    rfl

/-- Witness of `failure_statuses`: the run where `drmGetMagic` fails returns `BadAccess`. -/
theorem failure_statuses_witness :
    returned_status (wayland_screen_init 1 env_magic_fails 0 world0) = some BadAccess :=
  (failure_statuses 1 env_magic_fails 0 world0 (by decide)).2.2.1 (by decide) (by decide)
    (by decide)

/-- C8 (counterexample): the run where `open` fails and the run where `open` succeeds and
`drmGetMagic` fails return the same status, `BadAccess`. -/
theorem open_and_magic_failures_share_status :
    env_open_fails.open_result < 0 ∧
    0 ≤ env_magic_fails.open_result ∧ env_magic_fails.drmGetMagic.1 ≠ 0 ∧
    returned_status (wayland_screen_init 1 env_open_fails 0 world0) = some BadAccess ∧
    returned_status (wayland_screen_init 1 env_magic_fails 0 world0) = some BadAccess ∧
    returned_status (wayland_screen_init 1 env_open_fails 0 world0) =
      returned_status (wayland_screen_init 1 env_magic_fails 0 world0) := by
  decide

/-- C9: a run of `wayland_screen_init` that returns `Success` ends with the `authenticated`
flag non-zero, whatever the state on entry and whatever the host delivers. A callback
changes the flag only if it is the drm `authenticated` callback, which sets it to 1; every
other callback leaves it as it is, and when no batch holds that callback the flag has on
return the value it had on entry. -/
theorem success_needs_authenticated (META : Nat) (env : Env) (fuel : Nat) (w : World) :
    (∀ w2, wayland_screen_init META env fuel w = Outcome.returned (Success, w2) →
      w2.screen.authenticated ≠ 0) ∧
    (∀ (v v2 : World) (c : Callback), dispatch META v c = some v2 →
      v2.screen.authenticated =
        if c = Callback.drm_authenticated then 1 else v.screen.authenticated) ∧
    (∀ st w2, wayland_screen_init META env fuel w = Outcome.returned (st, w2) →
      (∀ k, Callback.drm_authenticated ∉ env.wl_display_iterate k) →
      w2.screen.authenticated = w.screen.authenticated) := by
  refine ⟨?_, ?_, ?_⟩
  · intro w2 h
    rcases init_returned_cases META env fuel w w2 Success h with
      ⟨_, hst⟩ | ⟨_, _, hst⟩ | ⟨_, _, _, hst⟩ | ⟨_, _, _, _, hauth⟩
    · exact absurd hst (by decide)
    · exact absurd hst (by decide)
    · exact absurd hst (by decide)
    · exact hauth
  · intro v v2 c h
    exact dispatch_authenticated META v v2 c h
  · intro st w2 h hno
    exact init_authenticated_frame META env fuel w w2 st h hno

/-- Witness of `success_needs_authenticated`: the run `env_ok` starts with the flag 0 and
returns `Success` with the flag non-zero. -/
theorem success_needs_authenticated_witness :
    world0.screen.authenticated = 0 ∧
    ∃ w2, wayland_screen_init 1 env_ok 5 world0 = Outcome.returned (Success, w2) ∧
      w2.screen.authenticated ≠ 0 := by
  refine ⟨rfl, ?_⟩
  have h : ∃ w2, wayland_screen_init 1 env_ok 5 world0 = Outcome.returned (Success, w2) :=
    ⟨_, rfl⟩
  obtain ⟨w2, h⟩ := h
  exact ⟨w2, h, (success_needs_authenticated 1 env_ok 5 world0).1 w2 h⟩

end Hosted
